import Mathlib

/-!
Shallow embedding of
`client/jetpack-cloud/sections/partner-portal/credit-card-fields/credit-card-pay-button.js`:
the credit-card form validator `isCreditCardFormValid`, the pay button's click
handler, and the status-to-label function `ButtonContents`.

The external `credit-card` field store is reached only through selectors
(`getFields`, `getCardDataErrors`, `getIncompleteFieldKeys`) and dispatches
(`setFieldValue`, `setCardDataError`).  Its state is modelled as association
lists; dispatches are recorded in a log so that side-effect counts can be
stated, and their effect on the state is modelled from the spec (the reducer
itself is not part of this source slice).
-/

namespace CreditCardButton

/-- A form field record in the credit-card field store.  Only `value` is read
by the code under verification. -/
structure Field where
  value : String
deriving Repr, DecidableEq

/-- Association-list lookup, mirroring a JS object property read
(`obj[key]`, `undefined` when absent). -/
def lookupA {α : Type} : List (String × α) → String → Option α
  | [], _ => none
  | (k', v') :: rest, k => if k' == k then some v' else lookupA rest k

/-- Association-list write, mirroring a JS object property write: the first
entry with the key is replaced in place, otherwise the entry is appended. -/
def setAssoc {α : Type} : List (String × α) → String → α → List (String × α)
  | [], k, v => [(k, v)]
  | (k', v') :: rest, k, v =>
      if k' == k then (k, v) :: rest else (k', v') :: setAssoc rest k v

/-- State of the external credit-card field store, as seen through the three
selectors the validator uses.  `cardDataErrors` values are `Option String`
so that a present-but-falsy (null-like) entry can be represented; a stored
empty string is also falsy in JS truthiness terms. -/
structure StoreState where
  fields : List (String × Field)
  cardDataErrors : List (String × Option String)
  incompleteFieldKeys : List String
deriving Repr, DecidableEq

/-- JS truthiness of a card-data-error mapping value: absent/null and the
empty string are falsy, any non-empty string is truthy. -/
def truthy : Option String → Bool
  | none => false
  | some s => s != ""

/-- The two store actions the validator dispatches. -/
inductive Action where
  | setFieldValue (name value : String)
  | setCardDataError (key message : String)
deriving Repr, DecidableEq

/-- Modelled from the spec: the reducer of the external `credit-card` field
store is not part of this source slice; per the spec's data model,
`dispatch(setFieldValue(name, value))` writes the named field's value and
`dispatch(setCardDataError(name, message))` writes the error-mapping entry,
each leaving the rest of the state unchanged. -/
def applyAction (st : StoreState) (a : Action) : StoreState :=
  match a with
  | Action.setFieldValue name value =>
      { st with fields := setAssoc st.fields name ⟨value⟩ }
  | Action.setCardDataError key message =>
      { st with cardDataErrors := setAssoc st.cardDataErrors key (some message) }

/-- Embedding of `isCreditCardFormValid(store, paymentPartner, __)`.  The
result is the returned boolean together with the final store state and the
list of dispatched actions, or the thrown `RangeError` message for an
unrecognized partner.  The translation function `__` is the identity on the
English strings. -/
def isCreditCardFormValid (st : StoreState) (paymentPartner : String) :
    Except String (Bool × StoreState × List Action) :=
  if paymentPartner = "stripe" then
    let cardholderName := lookupA st.fields "cardholderName"
    let hasLength : Bool :=
      match cardholderName with
      | none => false
      | some f => f.value.length != 0
    let touch : List Action :=
      if !hasLength then [Action.setFieldValue "cardholderName" ""] else []
    let st1 := touch.foldl applyAction st
    let errors := st1.cardDataErrors
    let incompleteFieldKeys := st1.incompleteFieldKeys
    let areThereErrors := errors.any (fun p => truthy p.2)
    let fanout : List Action :=
      if incompleteFieldKeys.length > 0 then
        incompleteFieldKeys.map (fun key => Action.setCardDataError key "This field is required")
      else []
    let st2 := fanout.foldl applyAction st1
    if areThereErrors || !hasLength || incompleteFieldKeys.length > 0 then
      Except.ok (false, st2, touch ++ fanout)
    else
      Except.ok (true, st2, touch ++ fanout)
  else
    Except.error ("Unexpected payment partner \x22" ++ paymentPartner ++ "\x22")

/-- The boolean the validator returns for partner "stripe", `none` if it
throws. -/
def validatorResult (st : StoreState) : Option Bool :=
  match isCreditCardFormValid st "stripe" with
  | Except.ok (b, _, _) => some b
  | Except.error _ => none

/-- The list of actions the validator dispatches for partner "stripe". -/
def validatorLog (st : StoreState) : List Action :=
  match isCreditCardFormValid st "stripe" with
  | Except.ok (_, _, log) => log
  | Except.error _ => []

/-- Spec-side predicate: the `cardholderName` field's value is empty (a
missing field has no characters to read and counts as empty, exactly as the
code's `! cardholderName?.value.length` treats it). -/
def cardholderNameEmpty (st : StoreState) : Bool :=
  match lookupA st.fields "cardholderName" with
  | none => true
  | some f => f.value == ""

/-- Spec-side predicate: at least one value in the card-data error mapping is
truthy. -/
def anyTruthyError (st : StoreState) : Bool :=
  st.cardDataErrors.any (fun p => truthy p.2)

/-- Recognizer for `setFieldValue` dispatches (the touch signal). -/
def Action.isSetFieldValue : Action → Bool
  | Action.setFieldValue _ _ => true
  | _ => false

/-- Recognizer for `setCardDataError` dispatches (the fan-out writes). -/
def Action.isSetCardDataError : Action → Bool
  | Action.setCardDataError _ _ => true
  | _ => false

/-- A display-formatted money amount (`total.amount` in the source). -/
structure Amount where
  displayValue : String
deriving Repr, DecidableEq

/-- A line item of the cart; only `amount.displayValue` of the total is read
by this code. -/
structure LineItem where
  amount : Amount
deriving Repr, DecidableEq

/-- The `FormStatus` enumeration of `composite-checkout`. -/
inductive FormStatus where
  | LOADING
  | READY
  | SUBMITTING
  | COMPLETE
deriving Repr, DecidableEq

/-- Embedding of the `ButtonContents` component: the label is a pure function
of the form status, the total, and the optional `activeButtonText` override
(`activeButtonText || sprintf(__('Pay %s'), total.amount.displayValue)` uses
JS truthiness, so an empty-string override falls through). -/
def ButtonContents (formStatus : FormStatus) (total : LineItem)
    (activeButtonText : Option String) : String :=
  if formStatus = FormStatus.SUBMITTING then
    "Processing…"
  else if formStatus = FormStatus.READY then
    match activeButtonText with
    | some s => if s == "" then "Pay " ++ total.amount.displayValue else s
    | none => "Pay " ++ total.amount.displayValue
  else
    "Please wait…"

/-- The button's `busy` flag: `FormStatus.SUBMITTING === formStatus`. -/
def busyFlag (formStatus : FormStatus) : Bool :=
  formStatus == FormStatus.SUBMITTING

/-- The payload handed to the caller-supplied `onClick` callback.  The SDK
handle and provider configuration are opaque here and modelled as strings;
`name` is `cardholderName?.value` and may be absent. -/
structure SubmissionPayload where
  stripe : String
  name : Option String
  items : List LineItem
  total : LineItem
  stripeConfiguration : String
  paymentPartner : String
deriving Repr, DecidableEq

/-- Embedding of the pay button's click handler: run the validator (partner
is the literal "stripe"); on `true` emit one `STRIPE_TRANSACTION_BEGIN`
event and invoke `onClick('card', payload)` once; on `false` do nothing.
Returns the final store state, the dispatch log, the emitted events, and the
submission-callback invocations. -/
def handlePayClick (st : StoreState) (stripe stripeConfiguration : String)
    (items : List LineItem) (total : LineItem) :
    Except String (StoreState × List Action × List String × List (String × SubmissionPayload)) :=
  let paymentPartner := "stripe"
  let cardholderName := lookupA st.fields "cardholderName"
  match isCreditCardFormValid st paymentPartner with
  | Except.error e => Except.error e
  | Except.ok (valid, st', log) =>
      if valid then
        Except.ok (st', log, ["STRIPE_TRANSACTION_BEGIN"],
          [("card",
            { stripe := stripe
              name := cardholderName.map Field.value
              items := items
              total := total
              stripeConfiguration := stripeConfiguration
              paymentPartner := paymentPartner })])
      else
        Except.ok (st', log, [], [])

/-- Events emitted by one click. -/
def clickEvents (st : StoreState) (stripe stripeConfiguration : String)
    (items : List LineItem) (total : LineItem) : List String :=
  match handlePayClick st stripe stripeConfiguration items total with
  | Except.ok (_, _, evs, _) => evs
  | Except.error _ => []

/-- Submission-callback invocations of one click. -/
def clickSubmissions (st : StoreState) (stripe stripeConfiguration : String)
    (items : List LineItem) (total : LineItem) : List (String × SubmissionPayload) :=
  match handlePayClick st stripe stripeConfiguration items total with
  | Except.ok (_, _, _, subs) => subs
  | Except.error _ => []

/-- Two successive validator calls on an unchanged store: the second call
runs on the state the first call left behind.  Records both boolean results
and both dispatch logs. -/
def validateTwice (st : StoreState) :
    Except String ((Bool × List Action) × (Bool × List Action)) :=
  match isCreditCardFormValid st "stripe" with
  | Except.error e => Except.error e
  | Except.ok (b1, st1, log1) =>
      match isCreditCardFormValid st1 "stripe" with
      | Except.error e => Except.error e
      | Except.ok (b2, _, log2) => Except.ok ((b1, log1), (b2, log2))

/-- The touch dispatch the validator performs when the cardholder name is
empty or missing (closed form, for the characterization lemma). -/
def touchActions (st : StoreState) : List Action :=
  if cardholderNameEmpty st then [Action.setFieldValue "cardholderName" ""] else []

/-- The fan-out error dispatches the validator performs, one per incomplete
field key (closed form, for the characterization lemma). -/
def fanoutActions (st : StoreState) : List Action :=
  st.incompleteFieldKeys.map (fun k => Action.setCardDataError k "This field is required")

/-- All dispatches of one validator call, in dispatch order. -/
def validatorActions (st : StoreState) : List Action :=
  touchActions st ++ fanoutActions st

/-- Closed form of the boolean the validator returns for partner "stripe". -/
def validatorBool (st : StoreState) : Bool :=
  !(anyTruthyError st || cardholderNameEmpty st || !st.incompleteFieldKeys.isEmpty)

/-- A fully valid store: non-empty cardholder name, no errors, nothing
incomplete. -/
def stGood : StoreState :=
  ⟨[("cardholderName", ⟨"Alice"⟩)], [], []⟩

/-- A store whose cardholder name is whitespace-only (length one, so the
code's length test treats it as present). -/
def stWhitespaceName : StoreState :=
  ⟨[("cardholderName", ⟨" "⟩)], [], []⟩

/-- A store whose cardholder name is present but the empty string. -/
def stEmptyName : StoreState :=
  ⟨[("cardholderName", ⟨""⟩)], [], []⟩

/-- A store with a valid cardholder name but two incomplete fields. -/
def stIncomplete : StoreState :=
  ⟨[("cardholderName", ⟨"Alice"⟩)], [], ["cardNumber", "cvv"]⟩

/-- A store with no `cardholderName` entry at all, one unrelated field, one
unrelated error entry, and one incomplete key. -/
def stFrame : StoreState :=
  ⟨[("cardNumber", ⟨"4242"⟩)], [("other", some "bad")], ["cvv"]⟩

/-- The state `stFrame` reaches after one validator call: the cardholder
name touched to "", one required-field error added for "cvv". -/
def stFrameFinal : StoreState :=
  ⟨[("cardNumber", ⟨"4242"⟩), ("cardholderName", ⟨""⟩)],
   [("other", some "bad"), ("cvv", some "This field is required")],
   ["cvv"]⟩

/-- A cart total displaying as "$9.99". -/
def total999 : LineItem :=
  ⟨⟨"$9.99"⟩⟩

/-- A string has length zero exactly when it is the empty string. -/
theorem string_length_eq_zero_iff (s : String) : s.length = 0 ↔ s = "" := by
  cases s with
  | mk l =>
    constructor
    · intro h
      simp [String.length] at h
      simp [h]
    · intro h
      simp [h]

/-- The code's length-based emptiness test agrees with equality to "". -/
theorem string_length_bne (s : String) : (s.length != 0) = !(s == "") := by
  rcases eq_or_ne s "" with h | h
  · subst h
    decide
  · have h2 : s.length ≠ 0 := fun hc => h ((string_length_eq_zero_iff s).mp hc)
    have e1 : (s.length != 0) = true := by simpa using h2
    have e2 : (s == "") = false := by simpa using h
    rw [e1, e2]
    rfl

/-- The `hasLength` test of the validator is the negation of
`cardholderNameEmpty`. -/
theorem hasLength_eq (st : StoreState) :
    (match lookupA st.fields "cardholderName" with
      | none => false
      | some f => f.value.length != 0) = !cardholderNameEmpty st := by
  unfold cardholderNameEmpty
  cases lookupA st.fields "cardholderName" with
  | none => rfl
  | some f => simpa using string_length_bne f.value

/-- A `setFieldValue` dispatch leaves the error mapping unchanged. -/
theorem setFieldValue_errors (st : StoreState) (n v : String) :
    (applyAction st (Action.setFieldValue n v)).cardDataErrors = st.cardDataErrors := rfl

/-- A `setFieldValue` dispatch leaves the incomplete-keys list unchanged. -/
theorem setFieldValue_incomplete (st : StoreState) (n v : String) :
    (applyAction st (Action.setFieldValue n v)).incompleteFieldKeys = st.incompleteFieldKeys := rfl

/-- Characterization of the validator for partner "stripe": it returns the
closed-form boolean, dispatches exactly `validatorActions`, and leaves the
store in the state those dispatches produce. -/
theorem validator_stripe_eq (st : StoreState) :
    isCreditCardFormValid st "stripe" =
      Except.ok (validatorBool st, (validatorActions st).foldl applyAction st,
        validatorActions st) := by
  unfold isCreditCardFormValid
  rw [if_pos rfl]
  simp only [hasLength_eq st, Bool.not_not]
  unfold validatorBool validatorActions touchActions fanoutActions
  cases hemp : cardholderNameEmpty st with
  | true =>
    cases hkeys : st.incompleteFieldKeys with
    | nil => simp [List.foldl_append, anyTruthyError, applyAction, hkeys]
    | cons k ks => simp [List.foldl_append, anyTruthyError, applyAction, hkeys]
  | false =>
    cases hkeys : st.incompleteFieldKeys with
    | nil =>
      simp [List.foldl_append, anyTruthyError, applyAction, hkeys]
      cases herr : st.cardDataErrors.any (fun p => truthy p.2) <;> simp [herr, hkeys]
    | cons k ks => simp [List.foldl_append, anyTruthyError, applyAction, hkeys]

/-- Every fan-out dispatch is a `setCardDataError`, so that filter keeps all
of them. -/
theorem filter_fanout_scde (keys : List String) (m : String) :
    (keys.map (fun k => Action.setCardDataError k m)).filter Action.isSetCardDataError =
      keys.map (fun k => Action.setCardDataError k m) := by
  induction keys with
  | nil => rfl
  | cons k ks ih => simp [Action.isSetCardDataError, ih]

/-- No fan-out dispatch is a `setFieldValue`. -/
theorem filter_fanout_sfv (keys : List String) (m : String) :
    (keys.map (fun k => Action.setCardDataError k m)).filter Action.isSetFieldValue = [] := by
  induction keys with
  | nil => rfl
  | cons k ks ih => simp [Action.isSetFieldValue, ih]

/-- Writing one key of an association list leaves every other key's lookup
unchanged. -/
theorem lookupA_setAssoc_ne {α : Type} (l : List (String × α)) (k f : String) (v : α)
    (h : f ≠ k) : lookupA (setAssoc l k v) f = lookupA l f := by
  induction l with
  | nil => simp [setAssoc, lookupA, Ne.symm h]
  | cons p rest ih =>
    obtain ⟨k', v'⟩ := p
    by_cases hk : k' = k
    · subst hk
      simp [setAssoc, lookupA, Ne.symm h]
    · simp [setAssoc, lookupA, hk, ih]

/-- The fan-out writes never touch the fields mapping. -/
theorem fanout_foldl_fields (keys : List String) (m : String) (s : StoreState) :
    ((keys.map (fun k => Action.setCardDataError k m)).foldl applyAction s).fields = s.fields := by
  induction keys generalizing s with
  | nil => rfl
  | cons k ks ih => simp [List.foldl_cons, ih, applyAction]

/-- The fan-out writes leave the error entry of every key not in the list
unchanged. -/
theorem fanout_foldl_errors_ne (keys : List String) (m : String) (k : String) :
    k ∉ keys → ∀ s : StoreState,
      lookupA ((keys.map (fun key => Action.setCardDataError key m)).foldl
        applyAction s).cardDataErrors k = lookupA s.cardDataErrors k := by
  induction keys with
  | nil =>
    intro _ s
    rfl
  | cons k' ks ih =>
    intro h s
    have h1 : k ≠ k' := by
      intro he
      exact h (he ▸ List.mem_cons_self k' ks)
    have h2 : k ∉ ks := fun hm => h (List.mem_cons_of_mem _ hm)
    simp only [List.map_cons, List.foldl_cons]
    rw [ih h2 (applyAction s (Action.setCardDataError k' m))]
    simp [applyAction, lookupA_setAssoc_ne s.cardDataErrors k' k (some m) h1]

/-- Shared: when the cardholder name is empty or missing, the validator
returns `false` and its only `setFieldValue` dispatch is the single touch of
`cardholderName` with the empty string. -/
theorem validator_empty_name (st : StoreState) (h : cardholderNameEmpty st = true) :
    validatorResult st = some false ∧
    (validatorLog st).filter Action.isSetFieldValue =
      [Action.setFieldValue "cardholderName" ""] := by
  unfold validatorResult validatorLog
  rw [validator_stripe_eq st]
  constructor
  · simp [validatorBool, h]
  · simp [validatorActions, touchActions, fanoutActions, h, List.filter_append,
      Action.isSetFieldValue, filter_fanout_sfv]

/-- C1: for partner "stripe" and every store state, the validator returns
`false` exactly when some card-data error value is truthy, or the
`cardholderName` value is empty (or the field missing), or the
incomplete-field-keys list is non-empty; in all other cases it returns
`true`. -/
theorem c1_validator_false_iff (st : StoreState) :
    (validatorResult st = some false ↔
      (anyTruthyError st = true ∨ cardholderNameEmpty st = true ∨
        st.incompleteFieldKeys ≠ []))
    ∧ (validatorResult st = some true ↔
      (anyTruthyError st = false ∧ cardholderNameEmpty st = false ∧
        st.incompleteFieldKeys = [])) := by
  unfold validatorResult
  rw [validator_stripe_eq st]
  cases hA : anyTruthyError st <;> cases hB : cardholderNameEmpty st <;>
    cases hK : st.incompleteFieldKeys <;> simp [validatorBool, hA, hB, hK]

/-- C3: for every partner other than "stripe" and every store state, the
validator throws the unrecognized-partner error: no boolean result and no
dispatches. -/
theorem c3_unknown_partner (st : StoreState) (p : String) (h : p ≠ "stripe") :
    isCreditCardFormValid st p =
      Except.error ("Unexpected payment partner \x22" ++ p ++ "\x22") := by
  unfold isCreditCardFormValid
  rw [if_neg h]

/-- C3 witness: partner "paypal" on a fully valid store throws. -/
theorem c3_witness :
    isCreditCardFormValid stGood "paypal" =
      Except.error "Unexpected payment partner \x22paypal\x22" :=
  c3_unknown_partner stGood "paypal" (by decide)

/-- C5 counterexample: with a whitespace-only cardholder name " " (trimmed
form empty) and an otherwise clean store, the validator returns `true` and
performs zero dispatches, contradicting the claimed touch-dispatch and
`false` result. -/
theorem c5_counterexample :
    validatorResult stWhitespaceName = some true ∧
    validatorLog stWhitespaceName = [] := by
  constructor <;> rfl

/-- C5 amended: for every store whose `cardholderName` value is the empty
string (whitespace-only values do not count, the code tests length, not a
trimmed value), the validator performs exactly one touch-dispatch for
`cardholderName` with the empty string and returns `false`. -/
theorem c5_amended_empty_touch (st : StoreState)
    (h : cardholderNameEmpty st = true) :
    validatorResult st = some false ∧
    (validatorLog st).filter Action.isSetFieldValue =
      [Action.setFieldValue "cardholderName" ""] :=
  validator_empty_name st h

/-- C5 witness: the amended statement at a store holding the empty string. -/
theorem c5_witness :
    validatorResult stEmptyName = some false ∧
    (validatorLog stEmptyName).filter Action.isSetFieldValue =
      [Action.setFieldValue "cardholderName" ""] :=
  c5_amended_empty_touch stEmptyName (by decide)

/-- C9: when the fields mapping has no `cardholderName` entry at all, the
validator treats it like an empty field: it performs the single
touch-dispatch for `cardholderName` and returns `false` (no crash — the
optional chaining is total). -/
theorem c9_missing_field (st : StoreState)
    (h : lookupA st.fields "cardholderName" = none) :
    validatorResult st = some false ∧
    (validatorLog st).filter Action.isSetFieldValue =
      [Action.setFieldValue "cardholderName" ""] := by
  have hemp : cardholderNameEmpty st = true := by
    unfold cardholderNameEmpty
    rw [h]
  exact validator_empty_name st hemp

/-- C9 witness: a store with no `cardholderName` entry. -/
theorem c9_witness :
    validatorResult stFrame = some false ∧
    (validatorLog stFrame).filter Action.isSetFieldValue =
      [Action.setFieldValue "cardholderName" ""] :=
  c9_missing_field stFrame (by decide)

/-- The touch dispatch is never a `setCardDataError`. -/
theorem filter_touch_scde (st : StoreState) :
    (touchActions st).filter Action.isSetCardDataError = [] := by
  unfold touchActions
  cases cardholderNameEmpty st <;> rfl

/-- The `setCardDataError` dispatches of one validator call are exactly the
fan-out over the incomplete field keys. -/
theorem filter_validatorActions_scde (st : StoreState) :
    (validatorActions st).filter Action.isSetCardDataError = fanoutActions st := by
  unfold validatorActions
  rw [List.filter_append, filter_touch_scde]
  simpa [fanoutActions] using
    filter_fanout_scde st.incompleteFieldKeys "This field is required"

/-- C2: on a click with partner "stripe", a `true` validation yields exactly
one `STRIPE_TRANSACTION_BEGIN` event and exactly one submission-callback
invocation with method tag "card" and a payload carrying the current
cardholder name, the line items and the total; a `false` validation yields
zero events and zero invocations. -/
theorem c2_click_behavior (st : StoreState) (stripe cfg : String)
    (items : List LineItem) (total : LineItem) :
    (validatorResult st = some true →
      clickEvents st stripe cfg items total = ["STRIPE_TRANSACTION_BEGIN"] ∧
      clickSubmissions st stripe cfg items total =
        [("card",
          { stripe := stripe
            name := (lookupA st.fields "cardholderName").map Field.value
            items := items
            total := total
            stripeConfiguration := cfg
            paymentPartner := "stripe" })])
    ∧ (validatorResult st = some false →
      clickEvents st stripe cfg items total = [] ∧
      clickSubmissions st stripe cfg items total = []) := by
  unfold clickEvents clickSubmissions handlePayClick validatorResult
  cases hb : validatorBool st <;> simp [validator_stripe_eq, hb]

/-- C2 witness: clicking with a fully valid store emits the event and the
one submission; clicking with an invalid store emits and submits nothing. -/
theorem c2_witness :
    (clickEvents stGood "sk_test" "cfg" [] total999 = ["STRIPE_TRANSACTION_BEGIN"] ∧
      clickSubmissions stGood "sk_test" "cfg" [] total999 =
        [("card",
          { stripe := "sk_test"
            name := some "Alice"
            items := []
            total := total999
            stripeConfiguration := "cfg"
            paymentPartner := "stripe" })]) ∧
    (clickEvents stEmptyName "sk_test" "cfg" [] total999 = [] ∧
      clickSubmissions stEmptyName "sk_test" "cfg" [] total999 = []) :=
  ⟨(c2_click_behavior stGood "sk_test" "cfg" [] total999).1 (by decide),
   (c2_click_behavior stEmptyName "sk_test" "cfg" [] total999).2 (by decide)⟩

/-- C4: with N incomplete field keys (N at least one, keys distinct), the
validator returns `false` and dispatches exactly one "set card data error"
per incomplete key, each with message "This field is required" — N in
total. -/
theorem c4_incomplete_fanout (st : StoreState)
    (h1 : st.incompleteFieldKeys ≠ []) (_h2 : st.incompleteFieldKeys.Nodup) :
    validatorResult st = some false ∧
    (validatorLog st).filter Action.isSetCardDataError =
      st.incompleteFieldKeys.map
        (fun k => Action.setCardDataError k "This field is required") ∧
    ((validatorLog st).filter Action.isSetCardDataError).length =
      st.incompleteFieldKeys.length := by
  unfold validatorResult validatorLog
  rw [validator_stripe_eq st]
  have hie : st.incompleteFieldKeys.isEmpty = false := by
    simpa [List.isEmpty_iff] using h1
  refine ⟨?_, ?_, ?_⟩
  · simp [validatorBool, hie]
  · rw [filter_validatorActions_scde st]
    rfl
  · rw [filter_validatorActions_scde st]
    simp [fanoutActions]

/-- C4 witness: two incomplete keys give exactly two error dispatches. -/
theorem c4_witness :
    validatorResult stIncomplete = some false ∧
    (validatorLog stIncomplete).filter Action.isSetCardDataError =
      stIncomplete.incompleteFieldKeys.map
        (fun k => Action.setCardDataError k "This field is required") ∧
    ((validatorLog stIncomplete).filter Action.isSetCardDataError).length =
      stIncomplete.incompleteFieldKeys.length :=
  c4_incomplete_fanout stIncomplete (by decide) (by decide)

/-- C6 counterexample: at status READY with an empty-string override the
label is not the supplied override "" but the "Pay" fallback, so the label
is not always the override when one is given. -/
theorem c6_counterexample :
    ButtonContents FormStatus.READY total999 (some "") = "Pay $9.99" ∧
    ButtonContents FormStatus.READY total999 (some "") ≠ "" := by
  constructor
  · rfl
  · decide

/-- C6 amended: SUBMITTING gives "Processing…" with busy true regardless of
total; READY gives the override when one is supplied and non-empty,
otherwise "Pay " followed by the total's display value, with busy false;
any other status gives "Please wait…" with busy false. -/
theorem c6_amended_label (total : LineItem) (a : Option String) :
    (ButtonContents FormStatus.SUBMITTING total a = "Processing…" ∧
      busyFlag FormStatus.SUBMITTING = true) ∧
    (∀ s : String, a = some s → s ≠ "" →
      ButtonContents FormStatus.READY total a = s) ∧
    ((a = none ∨ a = some "") →
      ButtonContents FormStatus.READY total a =
        "Pay " ++ total.amount.displayValue) ∧
    busyFlag FormStatus.READY = false ∧
    (ButtonContents FormStatus.LOADING total a = "Please wait…" ∧
      busyFlag FormStatus.LOADING = false) ∧
    (ButtonContents FormStatus.COMPLETE total a = "Please wait…" ∧
      busyFlag FormStatus.COMPLETE = false) := by
  refine ⟨⟨rfl, rfl⟩, ?_, ?_, rfl, ⟨rfl, rfl⟩, ⟨rfl, rfl⟩⟩
  · intro s hs hne
    subst hs
    simp [ButtonContents, hne]
  · intro h
    rcases h with h | h <;> subst h <;> rfl

/-- C6 witness: READY with the non-empty override "Save payment method". -/
theorem c6_witness :
    ButtonContents FormStatus.READY total999 (some "Save payment method") =
      "Save payment method" :=
  (c6_amended_label total999 (some "Save payment method")).2.1
    "Save payment method" rfl (by decide)

/-- C7: on a fully valid store (non-empty cardholder name, no truthy error,
nothing incomplete) the validator returns `true`, dispatches nothing and
leaves the store unchanged, so a second call behaves identically. -/
theorem c7_valid_idempotent (st : StoreState)
    (h1 : cardholderNameEmpty st = false) (h2 : anyTruthyError st = false)
    (h3 : st.incompleteFieldKeys = []) :
    isCreditCardFormValid st "stripe" = Except.ok (true, st, []) ∧
    validateTwice st = Except.ok ((true, []), (true, [])) := by
  have hmain : isCreditCardFormValid st "stripe" = Except.ok (true, st, []) := by
    rw [validator_stripe_eq st]
    simp [validatorBool, validatorActions, touchActions, fanoutActions, h1, h2, h3]
  refine ⟨hmain, ?_⟩
  unfold validateTwice
  simp [hmain]

/-- C7 witness: the fully valid store `stGood`. -/
theorem c7_witness :
    isCreditCardFormValid stGood "stripe" = Except.ok (true, stGood, []) ∧
    validateTwice stGood = Except.ok ((true, []), (true, [])) :=
  c7_valid_idempotent stGood (by decide) (by decide) (by decide)

/-- C8: at status READY a falsy (empty-string) `activeButtonText` override
is ignored: the label is the "Pay" fallback, exactly as when no override is
supplied. -/
theorem c8_falsy_override_fallback (total : LineItem) :
    ButtonContents FormStatus.READY total (some "") =
      "Pay " ++ total.amount.displayValue ∧
    ButtonContents FormStatus.READY total (some "") =
      ButtonContents FormStatus.READY total none := by
  constructor <;> rfl

/-- C10: the only writes one stripe validator call performs are the single
touch of `cardholderName` with "" and one required-field error per
incomplete key; the value of every other field and the error entry of every
other key are unchanged in the final state, and the returned boolean is
computed from the error mapping as read before the fan-out writes. -/
theorem c10_frame (st : StoreState) (b : Bool) (st' : StoreState)
    (log : List Action)
    (h : isCreditCardFormValid st "stripe" = Except.ok (b, st', log)) :
    (∀ a ∈ log, a = Action.setFieldValue "cardholderName" "" ∨
      ∃ k ∈ st.incompleteFieldKeys,
        a = Action.setCardDataError k "This field is required") ∧
    (∀ f, f ≠ "cardholderName" → lookupA st'.fields f = lookupA st.fields f) ∧
    (∀ k, k ∉ st.incompleteFieldKeys →
      lookupA st'.cardDataErrors k = lookupA st.cardDataErrors k) ∧
    b = !(anyTruthyError st || cardholderNameEmpty st ||
      !st.incompleteFieldKeys.isEmpty) := by
  rw [validator_stripe_eq st] at h
  simp only [Except.ok.injEq, Prod.mk.injEq] at h
  obtain ⟨hb, hst, hlog⟩ := h
  subst hb
  subst hst
  subst hlog
  refine ⟨?_, ?_, ?_, rfl⟩
  · intro a ha
    rcases List.mem_append.mp ha with ht | hf
    · left
      unfold touchActions at ht
      by_cases hemp : cardholderNameEmpty st
      · simp [hemp] at ht
        exact ht
      · simp [hemp] at ht
    · right
      unfold fanoutActions at hf
      obtain ⟨k, hk, rfl⟩ := List.mem_map.mp hf
      exact ⟨k, hk, rfl⟩
  · intro f hf
    unfold validatorActions fanoutActions
    rw [List.foldl_append]
    rw [fanout_foldl_fields st.incompleteFieldKeys "This field is required"
      ((touchActions st).foldl applyAction st)]
    unfold touchActions
    cases hemp : cardholderNameEmpty st
    · rfl
    · simp only [List.foldl_cons, List.foldl_nil, ite_true]
      exact lookupA_setAssoc_ne st.fields "cardholderName" f ⟨""⟩ hf
  · intro k hk
    unfold validatorActions fanoutActions
    rw [List.foldl_append]
    rw [fanout_foldl_errors_ne st.incompleteFieldKeys "This field is required" k hk
      ((touchActions st).foldl applyAction st)]
    unfold touchActions
    cases hemp : cardholderNameEmpty st
    · rfl
    · rfl

/-- C10 witness: after validating `stFrame`, the untouched field
"cardNumber" and the unrelated error key "other" read the same as before. -/
theorem c10_witness :
    lookupA stFrameFinal.fields "cardNumber" = lookupA stFrame.fields "cardNumber" ∧
    lookupA stFrameFinal.cardDataErrors "other" =
      lookupA stFrame.cardDataErrors "other" := by
  have h := c10_frame stFrame false stFrameFinal
    [Action.setFieldValue "cardholderName" "",
     Action.setCardDataError "cvv" "This field is required"] (by rfl)
  exact ⟨h.2.1 "cardNumber" (by decide), h.2.2.1 "other" (by decide)⟩

end CreditCardButton
